import Mathlib

/-!
Shallow embedding of the snake arcade game (`snake.py`): the grid data model,
the `Snake` movement state machine, the spawner retry loops, the enemy agent,
the high-score manager and the session tick (`Game.update`), together with
theorems settling the specification claims about them.

Positions are integer grid cells, modelled as `ℤ × ℤ` (pygame `Vector2`
values only ever hold integral coordinates in the game logic, and the code
casts them to `int` before comparisons).  Randomness is passed in explicitly:
every `randomize()` call consumes the next entry of a position stream, and
every `random.random()` draw is an explicit rational argument.
-/

/-- Grid position, the embedding of an integral pygame `Vector2`. -/
abbrev Pos : Type := ℤ × ℤ

/-- Embedding of the `GameState` enum. -/
inductive GameState where
  | MENU
  | PLAYING
  | PAUSED
  | GAME_OVER
deriving DecidableEq, Repr

/-- Embedding of `GameConfig` with the source's default field values.
`coconut_spawn_chance` is a rational (the source float 0.15 is exactly
representable and only ever compared against `random.random()` draws). -/
structure GameConfig where
  window_width : ℤ := 800
  window_height : ℤ := 600
  cell_size : ℤ := 20
  snake_speed : ℤ := 150
  min_snake_speed : ℤ := 80
  max_snake_speed : ℤ := 300
  speed_increase : ℤ := 20
  coconut_spawn_chance : ℚ := 15/100
deriving DecidableEq, Repr

/-- `GameConfig.cell_number_x`: `window_width // cell_size` (operands are
positive in every configuration considered, where `Int` and Python floor
division agree). -/
def GameConfig.cell_number_x (c : GameConfig) : ℤ :=
  c.window_width / c.cell_size

/-- `GameConfig.cell_number_y`: `window_height // cell_size`. -/
def GameConfig.cell_number_y (c : GameConfig) : ℤ :=
  c.window_height / c.cell_size

/-- Embedding of the `Snake` state: segment list (head first), current
direction delta, and the two pending-mutation flags. -/
structure Snake where
  body : List Pos
  direction : Pos
  new_block : Bool
  should_remove_block : Bool
deriving DecidableEq, Repr

/-- `Snake.move_snake`: grow branch if `new_block`, else shrink branch if
`should_remove_block` and length > 1 (dropping two tail segments when
length > 2, otherwise keeping only the new head), else the normal move.
`body.headI` embeds `self.body[0]`; the source only calls this with a
non-empty body. -/
def Snake.move_snake (s : Snake) : Snake :=
  if s.new_block then
    { s with body := (s.body.headI + s.direction) :: s.body, new_block := false }
  else if s.should_remove_block ∧ 1 < s.body.length then
    let body_copy := if 2 < s.body.length then s.body.dropLast.dropLast else []
    { s with body := (s.body.headI + s.direction) :: body_copy,
             should_remove_block := false }
  else
    if 1 < s.body.length then
      { s with body := (s.body.headI + s.direction) :: s.body.dropLast }
    else
      { s with body := [s.body.headI + s.direction] }

/-- `Snake.add_block`: set the grow-pending flag. -/
def Snake.add_block (s : Snake) : Snake :=
  { s with new_block := true }

/-- `Snake.remove_block`: set the shrink-pending flag only when the body has
more than one segment; otherwise the call does nothing. -/
def Snake.remove_block (s : Snake) : Snake :=
  if 1 < s.body.length then { s with should_remove_block := true } else s

/-- `Snake.check_collision`: true when the head is outside the grid
rectangle, or equals some non-head segment. -/
def Snake.check_collision (cfg : GameConfig) (s : Snake) : Bool :=
  let head := s.body.headI
  if ¬ (0 ≤ head.1 ∧ head.1 < cfg.cell_number_x ∧
        0 ≤ head.2 ∧ head.2 < cfg.cell_number_y) then
    true
  else
    s.body.tail.contains head

/-- `HighScoreManager.add_score`: append the new score, sort descending
(Python `sort(reverse=True)`; on integers the resulting value list is the
unique non-increasing reordering), keep the top 10, and report whether the
new score sits at index 0 of the resulting list. -/
def add_score (scores : List ℤ) (score : ℤ) : List ℤ × Bool :=
  let kept := (List.insertionSort (· ≥ ·) (scores ++ [score])).take 10
  (kept, decide (score = kept.headI))

/-- `Game.increase_speed` on the current speed value:
`max(min_snake_speed, current_speed - speed_increase)`. -/
def increase_speed (cfg : GameConfig) (current_speed : ℤ) : ℤ :=
  max cfg.min_snake_speed (current_speed - cfg.speed_increase)

/-- Python exceptions that can arise while loading the score file. -/
inductive PyError where
  | jsonDecodeError
  | fileNotFoundError
  | otherIOError
deriving DecidableEq, Repr

/-- `HighScoreManager.load_scores`: the filesystem is an oracle consisting of
`os.path.exists`'s answer and the outcome of `open` + `json.load`.  The
source wraps the read in `try ... except (json.JSONDecodeError,
FileNotFoundError): pass` and falls back to `[0]`; any other exception is
not caught and propagates. -/
def load_scores (fileExists : Bool) (readResult : Except PyError (List ℤ)) :
    Except PyError (List ℤ) :=
  if fileExists then
    match readResult with
    | .ok l => .ok l
    | .error .jsonDecodeError => .ok [0]
    | .error .fileNotFoundError => .ok [0]
    | .error e => .error e
  else
    .ok [0]

/-- Loop body shared by `Game.ensure_food_not_on_snake`: while the food lies
on some snake segment and fewer than `fuel` loop iterations have run,
replace it with the next stream draw.  The source caps the loop with an
explicit `attempts < 100` guard, so `fuel = 100` is the exact translation.
Returns the final food position and the next unused stream index. -/
def foodSnakeLoop (body : List Pos) (stream : ℕ → Pos) :
    ℕ → Pos → ℕ → Pos × ℕ
  | 0, food, idx => (food, idx)
  | fuel + 1, food, idx =>
    if body.contains food then foodSnakeLoop body stream fuel (stream idx) (idx + 1)
    else (food, idx)

/-- `Game.ensure_food_not_on_snake`: retry loop bounded at 100 attempts. -/
def ensure_food_not_on_snake (body : List Pos) (stream : ℕ → Pos)
    (food : Pos) (idx : ℕ) : Pos × ℕ :=
  foodSnakeLoop body stream 100 food idx

/-- Loop body of `Game.ensure_food_not_on_coconut`: while the food equals the
coconut position and fewer than `fuel` iterations have run, redraw the
food.  The source caps this loop at 100 attempts. -/
def foodCoconutLoop (cpos : Pos) (stream : ℕ → Pos) :
    ℕ → Pos → ℕ → Pos × ℕ
  | 0, food, idx => (food, idx)
  | fuel + 1, food, idx =>
    if food = cpos then foodCoconutLoop cpos stream fuel (stream idx) (idx + 1)
    else (food, idx)

/-- `Game.ensure_food_not_on_coconut`: retry loop bounded at 100 attempts. -/
def ensure_food_not_on_coconut (cpos : Pos) (stream : ℕ → Pos)
    (food : Pos) (idx : ℕ) : Pos × ℕ :=
  foodCoconutLoop cpos stream 100 food idx

/-- `Game.ensure_coconut_not_on_snake`: the source loop
`while any(block == self.coconut.pos for block in self.snake.body):
self.coconut.randomize()` carries NO attempt counter.  It is embedded with
an explicit fuel bounding how many guard evaluations we run: `some (pos,
idx)` means the loop exited with that final coconut position, `none` means
the loop is still running after `fuel` iterations. -/
def coconutSnakeLoop (body : List Pos) (stream : ℕ → Pos) :
    ℕ → Pos → ℕ → Option (Pos × ℕ)
  | 0, _, _ => none
  | fuel + 1, pos, idx =>
    if body.contains pos then coconutSnakeLoop body stream fuel (stream idx) (idx + 1)
    else some (pos, idx)

/-- Embedding of the `Enemy` state (the `speed` field is render-only and
omitted). -/
structure Enemy where
  pos : Pos
  direction : Pos
  move_timer : ℤ
  move_interval : ℤ
deriving DecidableEq, Repr

/-- `Enemy.update`: increment the timer; when it reaches `move_interval`,
reset it, advance if the candidate cell is in bounds (otherwise pick the
fresh direction `boundsDir`, standing for `randomize_direction()`), and then
with the draw `< 0.3` pick the fresh direction `chanceDir`.  Both the
comparison draw and the two candidate directions are explicit oracle
arguments; on a call where the timer does not fire nothing else happens. -/
def Enemy.update (cfg : GameConfig) (e : Enemy) (draw : ℚ)
    (boundsDir chanceDir : Pos) : Enemy :=
  let timer := e.move_timer + 1
  if e.move_interval ≤ timer then
    let e1 : Enemy := { e with move_timer := 0 }
    let new_pos := e.pos + e.direction
    let e2 : Enemy :=
      if 0 ≤ new_pos.1 ∧ new_pos.1 < cfg.cell_number_x ∧
         0 ≤ new_pos.2 ∧ new_pos.2 < cfg.cell_number_y then
        { e1 with pos := new_pos }
      else
        { e1 with direction := boundsDir }
    if draw < 3/10 then { e2 with direction := chanceDir } else e2
  else
    { e with move_timer := timer }

/-- Random oracle for one session tick: the coconut-spawn draw, the stream
of `randomize()` position draws (food and coconut share Python's single
`random` source, so they consume one stream in call order), and per-enemy
update draws (comparison value, bounds-failure direction, chance direction). -/
structure RandOracle where
  spawnDraw : ℚ
  posStream : ℕ → Pos
  enemyDraw : ℕ → ℚ × Pos × Pos

/-- Embedding of the `Game` session state.  `scores` is the
`HighScoreManager`'s in-memory list; `gameOvers` is an instrumentation
counter recording how many times `game_over()` has run (the persisted file
write inside it is a silent side effect). -/
structure Game where
  snake : Snake
  food : Pos
  coconut : Option Pos
  enemies : List Enemy
  score : ℤ
  state : GameState
  scores : List ℤ
  current_speed : ℤ
  gameOvers : ℕ
deriving DecidableEq, Repr

/-- `Game.game_over`: submit the current score to the high-score manager
and enter the GAME_OVER state (and bump the instrumentation counter). -/
def game_over (g : Game) : Game :=
  { g with scores := (add_score g.scores g.score).1,
           state := GameState.GAME_OVER,
           gameOvers := g.gameOvers + 1 }

/-- Food half of `Game.check_collision`: on a head/food hit, redraw the food,
set the snake's grow flag, bump the score; then possibly spawn a coconut
(fresh random position, unbounded repositioning off the snake — `none` when
that loop exhausts `ccFuel` — then food repositioned off the coconut), and
finally reposition the food off the snake.  `head` is `snake.body[0]` as
computed at the top of the source method. -/
def foodPhase (cfg : GameConfig) (spawnDraw : ℚ) (stream : ℕ → Pos)
    (ccFuel : ℕ) (head : Pos) (g : Game) (idx : ℕ) : Option (Game × ℕ) :=
  if g.food = head then
    let g1 : Game := { g with food := stream idx,
                              snake := g.snake.add_block,
                              score := g.score + 1 }
    match (if spawnDraw < cfg.coconut_spawn_chance ∧ g.coconut = none then
             match coconutSnakeLoop g1.snake.body stream ccFuel
                 (stream (idx + 1)) (idx + 2) with
             | none => none
             | some (cpos, idx3) =>
               let fc := ensure_food_not_on_coconut cpos stream g1.food idx3
               some (({ g1 with coconut := some cpos, food := fc.1 } : Game), fc.2)
           else some (g1, idx + 1)) with
    | none => none
    | some (g2, idxa) =>
      let fs := ensure_food_not_on_snake g2.snake.body stream g2.food idxa
      some (({ g2 with food := fs.1 } : Game), fs.2)
  else
    some (g, idx)

/-- Coconut half of `Game.check_collision`: on a head/coconut hit, set the
snake's shrink flag, lower the tick interval, destroy the coconut and add
the bonus points.  `head` is the head position computed at the top of the
source method (the food phase never moves the head). -/
def coconutPhase (cfg : GameConfig) (head : Pos) (g : Game) : Game :=
  match g.coconut with
  | some cpos =>
    if cpos = head then
      { g with snake := g.snake.remove_block,
               current_speed := increase_speed cfg g.current_speed,
               coconut := none,
               score := g.score + 2 }
    else g
  | none => g

/-- `Game.check_collision`: food phase then coconut phase, threading the
random-position stream index. -/
def game_check_collision (cfg : GameConfig) (spawnDraw : ℚ)
    (stream : ℕ → Pos) (ccFuel : ℕ) (g : Game) (idx : ℕ) :
    Option (Game × ℕ) :=
  let head := g.snake.body.headI
  match foodPhase cfg spawnDraw stream ccFuel head g idx with
  | none => none
  | some (g3, idx3) => some (coconutPhase cfg head g3, idx3)

/-- `Game.check_enemy_collision`: for each enemy sitting on the snake head,
run `game_over()` — the loop has no break, so several enemies trigger it
several times in the same tick. -/
def check_enemy_collision (g : Game) : Game :=
  g.enemies.foldl
    (fun acc e => if e.pos = acc.snake.body.headI then game_over acc else acc) g

/-- `Game.check_fail`: wall/self collision triggers `game_over()`. -/
def check_fail (cfg : GameConfig) (g : Game) : Game :=
  if g.snake.check_collision cfg then game_over g else g

/-- Per-enemy update over the enemy list, handing enemy `i` the draws
`draws i`. -/
def updateEnemies (cfg : GameConfig) (draws : ℕ → ℚ × Pos × Pos) :
    ℕ → List Enemy → List Enemy
  | _, [] => []
  | i, e :: es =>
    Enemy.update cfg e (draws i).1 (draws i).2.1 (draws i).2.2 ::
      updateEnemies cfg draws (i + 1) es

/-- `Game.update`: one session tick.  While PLAYING: move the snake, update
every enemy, run the item-collision phase (`none` when its unbounded
coconut-repositioning loop exhausts `ccFuel`), then the enemy-collision
scan and the wall/self check.  In any other state the tick does nothing. -/
def Game.update (cfg : GameConfig) (r : RandOracle) (ccFuel : ℕ) (g : Game) :
    Option Game :=
  if g.state = GameState.PLAYING then
    let g1 : Game := { g with snake := g.snake.move_snake }
    let g2 : Game := { g1 with enemies := updateEnemies cfg r.enemyDraw 0 g1.enemies }
    match game_check_collision cfg r.spawnDraw r.posStream ccFuel g2 0 with
    | none => none
    | some (g3, _) => some (check_fail cfg (check_enemy_collision g3))
  else
    some g

/-- Oracle for end-to-end scenario 1: every `randomize()` draw returns
(2, 3) (a cell off the snake), the coconut-spawn draw 1/2 fails against
0.15, and the enemy draws are unused because the enemy list is empty. -/
def scenarioOracle : RandOracle where
  spawnDraw := 1/2
  posStream := fun _ => (2, 3)
  enemyDraw := fun _ => (1/2, (0, 1), (0, 1))

/-- Initial state of end-to-end scenario 1: the source's initial snake
segments facing right, food at (6, 10), no coconut, no enemies, score 0,
PLAYING. -/
def scenarioGame : Game where
  snake := ⟨[(5, 10), (4, 10), (3, 10)], (1, 0), false, false⟩
  food := (6, 10)
  coconut := none
  enemies := []
  score := 0
  state := GameState.PLAYING
  scores := [0]
  current_speed := 150
  gameOvers := 0

/-- Oracle for the double-enemy-collision tick: draws are unused or
irrelevant (no food hit, enemy timers do not fire). -/
def collisionOracle : RandOracle where
  spawnDraw := 1/2
  posStream := fun _ => (0, 0)
  enemyDraw := fun _ => (1/2, (0, 1), (0, 1))

/-- State for the double-enemy-collision tick: a one-segment snake about to
move onto (6, 5), two enemies already sitting there (timers far from
firing), food elsewhere. -/
def collisionGame : Game where
  snake := ⟨[(5, 5)], (1, 0), false, false⟩
  food := (0, 0)
  coconut := none
  enemies := [⟨(6, 5), (0, 1), 0, 60⟩, ⟨(6, 5), (1, 0), 0, 60⟩]
  score := 7
  state := GameState.PLAYING
  scores := [0]
  current_speed := 150
  gameOvers := 0

/-- Master length computation for `Snake.move_snake`, covering all four
source branches (the `max` accounts for the degenerate empty body, which the
source never produces). -/
theorem move_snake_body_length (s : Snake) :
    s.move_snake.body.length =
      if s.new_block then s.body.length + 1
      else if s.should_remove_block = true ∧ 1 < s.body.length then
        s.body.length - 1
      else max 1 s.body.length := by
  rcases s with ⟨body, d, nb, sr⟩
  simp only [Snake.move_snake]
  split_ifs <;> simp_all [List.length_dropLast] <;> omega

/-- C1: for every snake state with a non-empty body, `move()` changes the
body length by exactly the specified amount: grow pending gives +1, shrink
pending with length > 1 (and no grow pending) gives −1, neither pending
leaves it unchanged, the length never drops below 1, and a `shrink()`
request at length 1 is a no-op. -/
theorem snake_move_length_spec (s : Snake) (h : s.body ≠ []) :
    (s.new_block = true → s.move_snake.body.length = s.body.length + 1) ∧
    (s.new_block = false → s.should_remove_block = true → 1 < s.body.length →
      s.move_snake.body.length = s.body.length - 1) ∧
    (s.new_block = false → s.should_remove_block = false →
      s.move_snake.body.length = s.body.length) ∧
    1 ≤ s.move_snake.body.length ∧
    (s.body.length = 1 → s.remove_block = s) := by
  have hlen : 0 < s.body.length := List.length_pos.mpr h
  have hmaster := move_snake_body_length s
  refine ⟨?_, ?_, ?_, ?_, ?_⟩
  · intro hnb
    simp [hnb] at hmaster
    omega
  · intro hnb hsr hgt
    simp [hnb, hsr, hgt] at hmaster
    omega
  · intro hnb hsr
    simp [hnb, hsr] at hmaster
    omega
  · rw [hmaster]
    split_ifs <;> omega
  · intro h1
    simp [Snake.remove_block, h1]

/-- Concrete instance of `snake_move_length_spec` at the source's initial
snake with the grow flag set. -/
theorem snake_move_length_spec_witness :
    (Snake.move_snake
        ⟨[((5 : ℤ), (10 : ℤ)), (4, 10), (3, 10)], (1, 0), true, false⟩).body.length =
      [((5 : ℤ), (10 : ℤ)), (4, 10), (3, 10)].length + 1 :=
  (snake_move_length_spec
      ⟨[((5 : ℤ), (10 : ℤ)), (4, 10), (3, 10)], (1, 0), true, false⟩
      (by simp)).1 rfl

/-- C7: `checkCollision()` returns true iff the head lies outside the grid
rectangle `[0, cell_number_x) × [0, cell_number_y)` or equals the position
of some non-head body segment. -/
theorem snake_check_collision_iff (cfg : GameConfig) (hd : Pos)
    (tl : List Pos) (d : Pos) (nb sr : Bool) :
    Snake.check_collision cfg ⟨hd :: tl, d, nb, sr⟩ = true ↔
      ¬ (0 ≤ hd.1 ∧ hd.1 < cfg.cell_number_x ∧
          0 ≤ hd.2 ∧ hd.2 < cfg.cell_number_y) ∨ hd ∈ tl := by
  by_cases hb : 0 ≤ hd.1 ∧ hd.1 < cfg.cell_number_x ∧
      0 ≤ hd.2 ∧ hd.2 < cfg.cell_number_y
  · simp [Snake.check_collision, hb]
  · simp [Snake.check_collision, hb]

/-- C9: when both pending flags are set, `move()` runs the grow branch and
clears only the grow flag; the shrink flag survives and fires on the next
`move()`, so the two consecutive moves change the length by +1 then −1,
a net change of 0. -/
theorem snake_both_flags_spec (body : List Pos) (d : Pos) (h : body ≠ []) :
    (Snake.move_snake ⟨body, d, true, true⟩).new_block = false ∧
    (Snake.move_snake ⟨body, d, true, true⟩).should_remove_block = true ∧
    (Snake.move_snake ⟨body, d, true, true⟩).body.length = body.length + 1 ∧
    (Snake.move_snake (Snake.move_snake ⟨body, d, true, true⟩)).body.length =
      body.length := by
  have hlen : 0 < body.length := List.length_pos.mpr h
  have h1 : Snake.move_snake ⟨body, d, true, true⟩ =
      ⟨(body.headI + d) :: body, d, false, true⟩ := by
    simp [Snake.move_snake]
  rw [h1]
  refine ⟨rfl, rfl, by simp, ?_⟩
  have h2 := move_snake_body_length ⟨(body.headI + d) :: body, d, false, true⟩
  simp [hlen] at h2
  omega

/-- One `increase_speed` step from a speed below the configured floor jumps
UP to the floor, so the update is not non-increasing from an arbitrary
starting speed. -/
theorem increase_speed_not_monotone_cex :
    increase_speed {} 70 = 80 ∧ ¬ increase_speed {} 70 ≤ 70 := by
  constructor <;> decide

/-- With a positive decrement, `increase_speed` maps any speed at or below
the floor to exactly the floor. -/
theorem increase_speed_below_floor (cfg : GameConfig)
    (hpos : 0 < cfg.speed_increase) (s : ℤ) (hs : s ≤ cfg.min_snake_speed) :
    increase_speed cfg s = cfg.min_snake_speed := by
  unfold increase_speed
  omega

/-- Iterating `increase_speed` from any start at most `n` above the floor
reaches the floor within `n + 1` steps. -/
theorem increase_speed_iterate_reaches (cfg : GameConfig)
    (hpos : 0 < cfg.speed_increase) :
    ∀ (n : ℕ) (s : ℤ), s ≤ cfg.min_snake_speed + n →
      (increase_speed cfg)^[n + 1] s = cfg.min_snake_speed := by
  intro n
  induction n with
  | zero =>
    intro s hs
    simpa using increase_speed_below_floor cfg hpos s (by simpa using hs)
  | succ m ih =>
    intro s hs
    rw [Function.iterate_succ_apply]
    apply ih
    unfold increase_speed
    push_cast at hs ⊢
    omega

/-- C5 (amended): `increase_speed` computes
`max(min_snake_speed, current_speed - speed_increase)`; it never goes below
the floor; it is non-increasing from every starting speed at or above the
floor (which covers every reachable speed, the initial value included); and
from every starting speed its iterates converge to and stay at
`min_snake_speed`.  (From a start strictly below the floor the first step
goes up to the floor, so the claim's unrestricted monotonicity fails.) -/
theorem increase_speed_amended (cfg : GameConfig)
    (hpos : 0 < cfg.speed_increase) :
    (∀ s : ℤ, increase_speed cfg s =
        max cfg.min_snake_speed (s - cfg.speed_increase)) ∧
    (∀ s : ℤ, cfg.min_snake_speed ≤ increase_speed cfg s) ∧
    (∀ s : ℤ, cfg.min_snake_speed ≤ s → increase_speed cfg s ≤ s) ∧
    (∀ s : ℤ, ∃ n : ℕ, ∀ m : ℕ, n ≤ m →
        (increase_speed cfg)^[m] s = cfg.min_snake_speed) := by
  refine ⟨fun s => rfl, fun s => le_max_left _ _, ?_, ?_⟩
  · intro s hs
    unfold increase_speed
    omega
  · intro s
    refine ⟨(s - cfg.min_snake_speed).toNat + 1, fun m hm => ?_⟩
    obtain ⟨k, rfl⟩ := Nat.exists_eq_add_of_le hm
    rw [Nat.add_comm ((s - cfg.min_snake_speed).toNat + 1) k,
      Function.iterate_add_apply,
      increase_speed_iterate_reaches cfg hpos _ s (by omega)]
    exact Function.iterate_fixed (increase_speed_below_floor cfg hpos _ le_rfl) k

/-- Concrete instance of `increase_speed_amended`: with the default
configuration, one step from the initial speed 150 does not increase it. -/
theorem increase_speed_amended_witness :
    increase_speed {} 150 ≤ 150 :=
  (increase_speed_amended {} (by decide)).2.2.1 150 (by decide)

/-- The unbounded coconut-repositioning loop never exits when every stream
draw lands on the snake. -/
theorem coconutSnakeLoop_const_none (p : Pos) :
    ∀ (fuel idx : ℕ), coconutSnakeLoop [p] (fun _ => p) fuel p idx = none := by
  intro fuel
  induction fuel with
  | zero => intro idx; rfl
  | succ n ih =>
    intro idx
    simpa [coconutSnakeLoop] using ih (idx + 1)

/-- C2 counterexample: with a one-segment snake at (5, 10), a coconut at
(5, 10) and every `randomize()` draw returning (5, 10), the
`ensure_coconut_not_on_snake` loop is still running after 101 guard
evaluations — it has no 100-attempt bound. -/
theorem coconut_retry_unbounded_cex :
    coconutSnakeLoop [((5 : ℤ), (10 : ℤ))] (fun _ => ((5 : ℤ), (10 : ℤ))) 101
      ((5 : ℤ), (10 : ℤ)) 0 = none :=
  coconutSnakeLoop_const_none ((5 : ℤ), (10 : ℤ)) 101 0

/-- Bound on the draws consumed by `foodSnakeLoop`: the returned stream
index grows by at most the fuel. -/
theorem foodSnakeLoop_idx_le (body : List Pos) (stream : ℕ → Pos) :
    ∀ (fuel : ℕ) (food : Pos) (idx : ℕ),
      (foodSnakeLoop body stream fuel food idx).2 ≤ idx + fuel := by
  intro fuel
  induction fuel with
  | zero => intro food idx; simp [foodSnakeLoop]
  | succ n ih =>
    intro food idx
    by_cases hc : food ∈ body
    · calc (foodSnakeLoop body stream (n + 1) food idx).2
          = (foodSnakeLoop body stream n (stream idx) (idx + 1)).2 := by
            simp [foodSnakeLoop, hc]
        _ ≤ (idx + 1) + n := ih (stream idx) (idx + 1)
        _ ≤ idx + (n + 1) := by omega
    · simp [foodSnakeLoop, hc]

/-- Bound on the draws consumed by `foodCoconutLoop`. -/
theorem foodCoconutLoop_idx_le (cpos : Pos) (stream : ℕ → Pos) :
    ∀ (fuel : ℕ) (food : Pos) (idx : ℕ),
      (foodCoconutLoop cpos stream fuel food idx).2 ≤ idx + fuel := by
  intro fuel
  induction fuel with
  | zero => intro food idx; simp [foodCoconutLoop]
  | succ n ih =>
    intro food idx
    by_cases hc : food = cpos
    · calc (foodCoconutLoop cpos stream (n + 1) food idx).2
          = (foodCoconutLoop cpos stream n (stream idx) (idx + 1)).2 := by
            simp [foodCoconutLoop, hc]
        _ ≤ (idx + 1) + n := ih (stream idx) (idx + 1)
        _ ≤ idx + (n + 1) := by omega
    · simp [foodCoconutLoop, hc]

/-- C2 (amended): the two food-placement retry loops
(`ensure_food_not_on_snake` and `ensure_food_not_on_coconut`) terminate
after at most 100 attempts, accepting a possibly-overlapping position: on
every input they consume at most 100 stream draws.  (The
coconut-off-snake loop carries no such bound — see the counterexample.) -/
theorem spawner_retry_bound_amended :
    (∀ (body : List Pos) (stream : ℕ → Pos) (food : Pos) (idx : ℕ),
        (ensure_food_not_on_snake body stream food idx).2 ≤ idx + 100) ∧
    (∀ (cpos : Pos) (stream : ℕ → Pos) (food : Pos) (idx : ℕ),
        (ensure_food_not_on_coconut cpos stream food idx).2 ≤ idx + 100) :=
  ⟨fun body stream food idx => foodSnakeLoop_idx_le body stream 100 food idx,
   fun cpos stream food idx => foodCoconutLoop_idx_le cpos stream 100 food idx⟩

/-- C8 counterexample: an I/O failure other than `json.JSONDecodeError` or
`FileNotFoundError` (e.g. a `PermissionError` raised by `open`) is not
caught by `load_scores`, which propagates it instead of returning `[0]`. -/
theorem load_scores_other_error_cex :
    load_scores true (Except.error PyError.otherIOError) =
        Except.error PyError.otherIOError ∧
    load_scores true (Except.error PyError.otherIOError) ≠
        Except.ok ([0] : List ℤ) := by
  exact ⟨rfl, by simp [load_scores]⟩

/-- C8 (amended): `load_scores` returns `[0]` when the file does not exist
and when the read fails with `json.JSONDecodeError` or `FileNotFoundError`
— the two exception types the source catches — and returns the parsed list
on a successful read; any other I/O failure propagates. -/
theorem load_scores_amended :
    (∀ r : Except PyError (List ℤ), load_scores false r = Except.ok [0]) ∧
    (load_scores true (Except.error PyError.jsonDecodeError) = Except.ok [0]) ∧
    (load_scores true (Except.error PyError.fileNotFoundError) = Except.ok [0]) ∧
    (∀ l : List ℤ, load_scores true (Except.ok l) = Except.ok l) := by
  refine ⟨fun r => rfl, rfl, rfl, fun l => rfl⟩

/-- C3 counterexample: on an update where the move-interval counter does not
fire (timer 0 of 60), no direction draw happens at all — with a draw of
1/10 < 3/10 and a fresh direction (0, 1) on offer, the enemy's direction
stays (1, 0), refuting re-randomization on every update. -/
theorem enemy_chance_every_update_cex :
    ((1 : ℚ)/10 < 3/10) ∧
    (Enemy.update {} ⟨((5 : ℤ), (5 : ℤ)), (1, 0), 0, 60⟩ (1/10)
        (0, -1) (0, 1)).direction = ((1 : ℤ), (0 : ℤ)) ∧
    ((1 : ℤ), (0 : ℤ)) ≠ (((0 : ℤ), (1 : ℤ)) : Pos) := by
  refine ⟨by norm_num, ?_, by decide⟩
  simp [Enemy.update]

/-- C3 (amended): the flat 0.3 direction-change chance applies only on
updates where the move-interval counter fires (the incremented timer
reaches `move_interval`); there it re-randomizes the direction regardless
of the bounds outcome whenever the draw is below 0.3.  On an update where
the counter does not fire, the whole body is skipped: only the timer
increments and the direction (and position) are unchanged. -/
theorem enemy_chance_amended (cfg : GameConfig) (e : Enemy) (draw : ℚ)
    (boundsDir chanceDir : Pos) :
    (e.move_interval ≤ e.move_timer + 1 → draw < 3/10 →
      (Enemy.update cfg e draw boundsDir chanceDir).direction = chanceDir) ∧
    (e.move_timer + 1 < e.move_interval →
      Enemy.update cfg e draw boundsDir chanceDir =
        { e with move_timer := e.move_timer + 1 }) := by
  constructor
  · intro hfire hdraw
    simp only [Enemy.update, if_pos hfire, if_pos hdraw]
  · intro hnot
    simp only [Enemy.update, if_neg (not_le.mpr hnot)]

/-- Concrete instance of `enemy_chance_amended`: a firing update (timer 59
of 60) with draw 1/10 < 0.3 adopts the freshly drawn direction. -/
theorem enemy_chance_amended_witness :
    (Enemy.update {} ⟨((5 : ℤ), (5 : ℤ)), (1, 0), 59, 60⟩ (1/10)
        (0, -1) (0, 1)).direction = (((0 : ℤ), (1 : ℤ)) : Pos) :=
  (enemy_chance_amended {} ⟨((5 : ℤ), (5 : ℤ)), (1, 0), 59, 60⟩ (1/10)
      (0, -1) (0, 1)).1 (by norm_num) (by norm_num)

/-- Every element of a non-increasing integer list is at most its head. -/
theorem sorted_ge_le_headI {l : List ℤ} (h : l.Sorted (· ≥ ·)) :
    ∀ x ∈ l, x ≤ l.headI := by
  cases l with
  | nil => simp
  | cons a t =>
    intro x hx
    rcases List.mem_cons.mp hx with rfl | hx
    · simp
    · simpa using List.rel_of_sorted_cons h x hx

/-- C6: `add_score` appends the new score, re-sorts descending retaining
duplicates, truncates to 10 entries (all of which `add_score`'s definition
embeds from the source), and reports true exactly when the new score is a
maximum of the resulting list (an element at least as large as every
element); in particular from stored scores [50, 80, 20], adding 80 yields
[80, 80, 50, 20] and reports true. -/
theorem add_score_spec :
    (∀ (scores : List ℤ) (s : ℤ),
        (add_score scores s).2 = true ↔
          s ∈ (add_score scores s).1 ∧ ∀ x ∈ (add_score scores s).1, x ≤ s) ∧
    add_score [50, 80, 20] 80 = ([80, 80, 50, 20], true) := by
  constructor
  · intro scores s
    have hsort : (List.insertionSort (· ≥ ·) (scores ++ [s])).Sorted (· ≥ ·) :=
      List.sorted_insertionSort _ _
    have hsort10 :
        ((List.insertionSort (· ≥ ·) (scores ++ [s])).take 10).Sorted (· ≥ ·) :=
      List.Pairwise.sublist (List.take_sublist 10 _) hsort
    have hne : (List.insertionSort (· ≥ ·) (scores ++ [s])).take 10 ≠ [] := by
      apply List.length_pos.mp
      have hlen : (List.insertionSort (· ≥ ·) (scores ++ [s])).length =
          scores.length + 1 := by
        simp
      simp [List.length_take, hlen]
    have hkept : (add_score scores s).1 =
        (List.insertionSort (· ≥ ·) (scores ++ [s])).take 10 := rfl
    have hbool : (add_score scores s).2 =
        decide (s = ((List.insertionSort (· ≥ ·) (scores ++ [s])).take 10).headI) :=
      rfl
    rw [hkept, hbool, decide_eq_true_iff]
    rcases hk : (List.insertionSort (· ≥ ·) (scores ++ [s])).take 10 with _ | ⟨a, t⟩
    · exact absurd hk hne
    · rw [hk] at hsort10
      constructor
      · rintro rfl
        exact ⟨List.mem_cons_self _ _, sorted_ge_le_headI hsort10⟩
      · rintro ⟨hmem, hub⟩
        exact le_antisymm (sorted_ge_le_headI hsort10 s hmem)
          (hub _ (List.mem_cons_self _ _))
  · decide

/-- Concrete instance of `snake_both_flags_spec` on a two-segment snake. -/
theorem snake_both_flags_spec_witness :
    (Snake.move_snake
        (Snake.move_snake
          ⟨[((5 : ℤ), (10 : ℤ)), (4, 10)], (1, 0), true, true⟩)).body.length =
      [((5 : ℤ), (10 : ℤ)), (4, 10)].length :=
  (snake_both_flags_spec [((5 : ℤ), (10 : ℤ)), (4, 10)] (1, 0) (by simp)).2.2.2


/-- The food phase of `Game.check_collision` never changes the snake's
segment list, the enemy list, the game-over count or the session state. -/
theorem foodPhase_preserves {cfg : GameConfig} {sp : ℚ} {stream : ℕ → Pos}
    {fuel : ℕ} {head : Pos} {g : Game} {idx : ℕ} {g2 : Game} {idx2 : ℕ}
    (h : foodPhase cfg sp stream fuel head g idx = some (g2, idx2)) :
    g2.snake.body = g.snake.body ∧ g2.enemies = g.enemies ∧
      g2.gameOvers = g.gameOvers ∧ g2.state = g.state := by
  simp only [foodPhase] at h
  split at h
  · split at h
    · exact absurd h (by simp)
    · rename_i g2' idxa heq
      simp only [Option.some.injEq, Prod.mk.injEq] at h
      obtain ⟨rfl, rfl⟩ := h
      split at heq
      · split at heq
        · exact absurd heq (by simp)
        · rename_i cpos idx3 heq2
          simp only [Option.some.injEq, Prod.mk.injEq] at heq
          obtain ⟨rfl, rfl⟩ := heq
          simp [Snake.add_block]
      · simp only [Option.some.injEq, Prod.mk.injEq] at heq
        obtain ⟨rfl, rfl⟩ := heq
        simp [Snake.add_block]
  · simp only [Option.some.injEq, Prod.mk.injEq] at h
    obtain ⟨rfl, rfl⟩ := h
    exact ⟨rfl, rfl, rfl, rfl⟩

/-- The coconut phase of `Game.check_collision` never changes the snake's
segment list, the enemy list, the game-over count or the session state. -/
theorem coconutPhase_preserves (cfg : GameConfig) (head : Pos) (g : Game) :
    (coconutPhase cfg head g).snake.body = g.snake.body ∧
    (coconutPhase cfg head g).enemies = g.enemies ∧
    (coconutPhase cfg head g).gameOvers = g.gameOvers ∧
    (coconutPhase cfg head g).state = g.state := by
  unfold coconutPhase
  split
  · split_ifs
    · refine ⟨?_, rfl, rfl, rfl⟩
      simp [Snake.remove_block]
      split_ifs <;> rfl
    · exact ⟨rfl, rfl, rfl, rfl⟩
  · exact ⟨rfl, rfl, rfl, rfl⟩

/-- The enemy-collision scan bumps the game-over count once per enemy on
the snake head and touches neither the snake nor the enemy list. -/
theorem check_enemy_collision_fold (es : List Enemy) :
    ∀ acc : Game,
      (List.foldl
          (fun a e => if e.pos = a.snake.body.headI then game_over a else a)
          acc es).gameOvers =
        acc.gameOvers +
          es.countP (fun e => decide (e.pos = acc.snake.body.headI)) ∧
      (List.foldl
          (fun a e => if e.pos = a.snake.body.headI then game_over a else a)
          acc es).snake = acc.snake ∧
      (List.foldl
          (fun a e => if e.pos = a.snake.body.headI then game_over a else a)
          acc es).enemies = acc.enemies := by
  induction es with
  | nil => intro acc; simp
  | cons e es ih =>
    intro acc
    by_cases he : e.pos = acc.snake.body.headI
    · have hstep :
          (fun a e => if e.pos = a.snake.body.headI then game_over a else a)
            acc e = game_over acc := by simp [he]
      obtain ⟨ih1, ih2, ih3⟩ := ih (game_over acc)
      simp only [List.foldl_cons, hstep]
      refine ⟨?_, ih2, ih3⟩
      rw [ih1]
      simp [game_over, List.countP_cons, he]
      omega
    · have hstep :
          (fun a e => if e.pos = a.snake.body.headI then game_over a else a)
            acc e = acc := by simp [he]
      obtain ⟨ih1, ih2, ih3⟩ := ih acc
      simp only [List.foldl_cons, hstep]
      refine ⟨?_, ih2, ih3⟩
      rw [ih1]
      simp [List.countP_cons, he]

/-- Field form of `check_enemy_collision_fold`. -/
theorem check_enemy_collision_spec (g : Game) :
    (check_enemy_collision g).gameOvers =
      g.gameOvers +
        g.enemies.countP (fun e => decide (e.pos = g.snake.body.headI)) ∧
    (check_enemy_collision g).snake = g.snake ∧
    (check_enemy_collision g).enemies = g.enemies :=
  check_enemy_collision_fold g.enemies g

/-- The wall/self check bumps the game-over count exactly when
`checkCollision()` holds and touches neither the snake nor the enemy
list. -/
theorem check_fail_spec (cfg : GameConfig) (g : Game) :
    (check_fail cfg g).gameOvers =
      g.gameOvers + (if g.snake.check_collision cfg then 1 else 0) ∧
    (check_fail cfg g).snake = g.snake ∧
    (check_fail cfg g).enemies = g.enemies := by
  unfold check_fail
  split_ifs <;> simp [game_over]

/-- Combined count over the enemy-collision scan followed by the wall/self
check, phrased on the final state's own fields. -/
theorem tail_phase_count (cfg : GameConfig) (g3 : Game) :
    (check_fail cfg (check_enemy_collision g3)).gameOvers =
      g3.gameOvers +
        (check_fail cfg (check_enemy_collision g3)).enemies.countP
          (fun e => decide (e.pos =
            (check_fail cfg (check_enemy_collision g3)).snake.body.headI)) +
        (if (check_fail cfg
              (check_enemy_collision g3)).snake.check_collision cfg then 1
         else 0) := by
  obtain ⟨hc1, hc2, hc3⟩ := check_enemy_collision_spec g3
  obtain ⟨hf1, hf2, hf3⟩ := check_fail_spec cfg (check_enemy_collision g3)
  rw [hf1, hc1, hf2, hc2, hf3, hc3]

/-- C10: in one PLAYING `update()` tick, `game_over()` — and with it the
append of the current score into the persisted high-score list — executes
once for every (updated) enemy whose position equals the snake head, plus
once more when `checkCollision()` also holds; one tick can therefore record
the same final score several times. -/
theorem update_game_over_count (cfg : GameConfig) (r : RandOracle)
    (ccFuel : ℕ) (g g' : Game) (hplay : g.state = GameState.PLAYING)
    (h : Game.update cfg r ccFuel g = some g') :
    g'.gameOvers = g.gameOvers +
      g'.enemies.countP (fun e => decide (e.pos = g'.snake.body.headI)) +
      (if g'.snake.check_collision cfg then 1 else 0) := by
  simp only [Game.update] at h
  rw [if_pos hplay] at h
  split at h
  · exact absurd h (by simp)
  · rename_i g3 idx3 heq
    injection h with hg'
    subst hg'
    simp only [game_check_collision] at heq
    split at heq
    · exact absurd heq (by simp)
    · rename_i gf idxf heq2
      simp only [Option.some.injEq, Prod.mk.injEq] at heq
      obtain ⟨rfl, rfl⟩ := heq
      rw [tail_phase_count]
      rw [(coconutPhase_preserves cfg _ gf).2.2.1]
      rw [(foodPhase_preserves heq2).2.2.1]

/-- Concrete instance of `update_game_over_count`: in `collisionGame` two
enemies sit on the cell the snake moves onto, so the tick runs `game_over()`
(and appends the score) exactly twice. -/
theorem update_game_over_count_witness :
    ((Game.update {} collisionOracle 100 collisionGame).getD
        collisionGame).gameOvers =
      collisionGame.gameOvers +
        ((Game.update {} collisionOracle 100 collisionGame).getD
            collisionGame).enemies.countP
          (fun e => decide (e.pos =
            ((Game.update {} collisionOracle 100 collisionGame).getD
                collisionGame).snake.body.headI)) +
        (if ((Game.update {} collisionOracle 100 collisionGame).getD
              collisionGame).snake.check_collision {} then 1
         else 0) :=
  update_game_over_count {} collisionOracle 100 collisionGame
    ((Game.update {} collisionOracle 100 collisionGame).getD collisionGame)
    rfl (by decide)

/-- A food position off the snake body exits the bounded retry loop at
once, for every fuel. -/
theorem foodSnakeLoop_not_mem {body : List Pos} {stream : ℕ → Pos}
    {food : Pos} (h : food ∉ body) :
    ∀ (fuel idx : ℕ), foodSnakeLoop body stream fuel food idx = (food, idx) := by
  intro fuel idx
  cases fuel <;> simp [foodSnakeLoop, h]

/-- Evaluation of one `update()` tick of end-to-end scenario 1: the head
moves onto the food, the food branch fires (score 1, grow flag set, food
redrawn at (2, 3)), no coconut spawns (draw 1/2 ≥ 0.15), and no game-over
check fires. -/
theorem scenario_eval :
    Game.update {} scenarioOracle 100 scenarioGame =
      some { snake := ⟨[(6, 10), (5, 10), (4, 10)], (1, 0), true, false⟩,
             food := (2, 3), coconut := none, enemies := [], score := 1,
             state := GameState.PLAYING, scores := [0], current_speed := 150,
             gameOvers := 0 } := by
  have hsp : ¬ ((2 : ℚ)⁻¹ < 15 / 100) := by norm_num
  simp [Game.update, scenarioGame, scenarioOracle, updateEnemies,
    game_check_collision, foodPhase, coconutPhase, hsp,
    Snake.move_snake, Snake.add_block, ensure_food_not_on_snake,
    foodSnakeLoop_not_mem,
    check_enemy_collision, check_fail, Snake.check_collision,
    GameConfig.cell_number_x, GameConfig.cell_number_y, Prod.mk_add_mk]

/-- C4 counterexample: in end-to-end scenario 1 the snake's length within
the tick that eats the food is still 3, not 4 — `add_block()` only sets the
grow-pending flag, which takes effect on the NEXT `move()`. -/
theorem scenario_one_length_cex :
    (Game.update {} scenarioOracle 100 scenarioGame).map
        (fun g => g.snake.body.length) = some 3 ∧
    (Game.update {} scenarioOracle 100 scenarioGame).map
        (fun g => g.snake.body.length) ≠ some 4 := by
  rw [scenario_eval]
  exact ⟨rfl, by simp⟩

/-- C4 (amended): in end-to-end scenario 1 (snake [(5,10),(4,10),(3,10)]
facing right, food at (6,10), PLAYING), after one `update()` the head is
(6,10), the food-collision branch has fired — the food is relocated to the
next stream draw (2,3) and the score is 1 — and the grow-pending flag is
set with the length still 3; the length becomes 4 on the following
`move()`. -/
theorem scenario_one_amended :
    (Game.update {} scenarioOracle 100 scenarioGame).map
        (fun g => (g.snake.body.headI, g.food, g.score, g.snake.new_block,
          g.snake.body.length, g.snake.move_snake.body.length)) =
      some (((6 : ℤ), (10 : ℤ)), ((2 : ℤ), (3 : ℤ)), 1, true, 3, 4) := by
  rw [scenario_eval]
  rfl
